import Mathlib

/-!
# Hand_AR_Project: palm basis, heart pose and frame loop of `src/main.js`

JavaScript numbers are modelled by exact reals.  The pieces of three.js that
`main.js` calls (`Vector3`, `MathUtils.clamp`) and `Math.hypot` are embedded
with their library semantics; in particular `Vector3.normalize` divides by
`length() || 1`, so the zero vector stays the zero vector.
-/

namespace HandAR

/-! ## three.js `Vector3` -/

/-- Exact-real model of `THREE.Vector3`. -/
@[ext]
structure Vector3 where
  x : ℝ
  y : ℝ
  z : ℝ

namespace Vector3

/-- Model of `a.clone().sub(b)`. -/
def sub (a b : Vector3) : Vector3 :=
  ⟨a.x - b.x, a.y - b.y, a.z - b.z⟩

/-- Model of `a.clone().add(b)`. -/
def add (a b : Vector3) : Vector3 :=
  ⟨a.x + b.x, a.y + b.y, a.z + b.z⟩

/-- Model of `v.multiplyScalar(s)`. -/
def multiplyScalar (v : Vector3) (s : ℝ) : Vector3 :=
  ⟨v.x * s, v.y * s, v.z * s⟩

/-- Model of `v.divideScalar(s)`, which three.js defines as `multiplyScalar(1 / s)`. -/
noncomputable def divideScalar (v : Vector3) (s : ℝ) : Vector3 :=
  multiplyScalar v (1 / s)

/-- Model of `new THREE.Vector3().crossVectors(a, b)`. -/
def crossVectors (a b : Vector3) : Vector3 :=
  ⟨a.y * b.z - a.z * b.y, a.z * b.x - a.x * b.z, a.x * b.y - a.y * b.x⟩

/-- Model of `a.dot(b)`. -/
def dot (a b : Vector3) : ℝ :=
  a.x * b.x + a.y * b.y + a.z * b.z

/-- Model of `v.lengthSq()`. -/
def lengthSq (v : Vector3) : ℝ :=
  v.x * v.x + v.y * v.y + v.z * v.z

/-- Model of `v.length()`. -/
noncomputable def length (v : Vector3) : ℝ :=
  Real.sqrt (v.x * v.x + v.y * v.y + v.z * v.z)

/-- The scalar `1 / (length() || 1)` by which `normalize` multiplies. -/
noncomputable def normFactor (v : Vector3) : ℝ :=
  1 / (if length v = 0 then 1 else length v)

/-- Model of `v.normalize()`, that is `v.divideScalar(v.length() || 1)`. -/
noncomputable def normalize (v : Vector3) : Vector3 :=
  divideScalar v (if length v = 0 then 1 else length v)

/-- Euclidean distance of two render-space points, depth included.  This is the
quantity the specification names for the palm width (three.js calls it
`a.distanceTo(b)`); `main.js` itself never calls it. -/
noncomputable def distanceTo (a b : Vector3) : ℝ :=
  Real.sqrt ((a.x - b.x) * (a.x - b.x) + (a.y - b.y) * (a.y - b.y) + (a.z - b.z) * (a.z - b.z))

/-- Euclidean distance of the image-plane (`x`, `y`) projections of two
render-space points, depth ignored. -/
noncomputable def planarDistanceTo (a b : Vector3) : ℝ :=
  Real.sqrt ((a.x - b.x) * (a.x - b.x) + (a.y - b.y) * (a.y - b.y))

end Vector3

/-- Model of `THREE.MathUtils.clamp(value, min, max)`, that is
`Math.max(min, Math.min(max, value))`. -/
noncomputable def clamp (value lo hi : ℝ) : ℝ :=
  max lo (min hi value)

/-- Model of `Math.hypot(a, b)`. -/
noncomputable def hypot (a b : ℝ) : ℝ :=
  Real.sqrt (a * a + b * b)

/-! ## Landmarks -/

/-- A hand landmark as delivered by the tracker: `x`, `y` and an optional depth `z`. -/
structure Landmark where
  x : ℝ
  y : ℝ
  z : Option ℝ

/-- The landmarks of one hand.  The hand landmarker reports 21 joints per hand;
`main.js` reads the indices 0, 5, 9, 13 and 17. -/
abbrev LandmarkSet := Fin 21 → Landmark

/-- The constant `PALM_INDICES`. -/
def PALM_INDICES : List (Fin 21) := [5, 9, 13, 17]

/-- The constant `depthScale`. -/
def depthScale : ℝ := 420

/-- The constant `heartOffset`. -/
def heartOffset : ℝ := 40

/-- Accumulator of the `reduce` in `averagePoint`. -/
structure Acc where
  x : ℝ
  y : ℝ
  z : ℝ

/-- The reducer callback of `averagePoint`. -/
def averageStep (landmarks : LandmarkSet) (acc : Acc) (index : Fin 21) : Acc :=
  let p := landmarks index
  ⟨acc.x + p.x, acc.y + p.y, acc.z + p.z.getD 0⟩

/-- Model of `averagePoint(indices, landmarks)`. -/
noncomputable def averagePoint (indices : List (Fin 21)) (landmarks : LandmarkSet) : Landmark :=
  let sum := indices.foldl (averageStep landmarks) ⟨0, 0, 0⟩
  let count : ℝ := if indices.length = 0 then 1 else (indices.length : ℝ)
  ⟨sum.x / count, sum.y / count, some (sum.z / count)⟩

/-- Model of `landmarkToScene(landmark)`; the globals `renderWidth` and
`renderHeight` are passed explicitly. -/
noncomputable def landmarkToScene (renderWidth renderHeight : ℝ) (landmark : Landmark) : Vector3 :=
  ⟨landmark.x * renderWidth - renderWidth / 2,
   renderHeight / 2 - landmark.y * renderHeight,
   landmark.z.getD 0 * depthScale⟩

/-! ## `computeBasis` -/

/-- The local `indexVec` of `computeBasis`. -/
noncomputable def indexVec (renderWidth renderHeight : ℝ) (landmarks : LandmarkSet) : Vector3 :=
  (landmarkToScene renderWidth renderHeight (landmarks 5)).sub
    (landmarkToScene renderWidth renderHeight (landmarks 0))

/-- The local `pinkyVec` of `computeBasis`. -/
noncomputable def pinkyVec (renderWidth renderHeight : ℝ) (landmarks : LandmarkSet) : Vector3 :=
  (landmarkToScene renderWidth renderHeight (landmarks 17)).sub
    (landmarkToScene renderWidth renderHeight (landmarks 0))

/-- The local `middleBase.clone().sub(wrist)` of `computeBasis`. -/
noncomputable def middleVec (renderWidth renderHeight : ℝ) (landmarks : LandmarkSet) : Vector3 :=
  (landmarkToScene renderWidth renderHeight (landmarks 9)).sub
    (landmarkToScene renderWidth renderHeight (landmarks 0))

/-- The candidate normal `crossVectors(indexVec, pinkyVec)` before the
degeneracy and sign branches. -/
noncomputable def candidateNormal (renderWidth renderHeight : ℝ) (landmarks : LandmarkSet) :
    Vector3 :=
  Vector3.crossVectors (indexVec renderWidth renderHeight landmarks)
    (pinkyVec renderWidth renderHeight landmarks)

/-- The branch on the candidate normal followed by `normal.normalize()`. -/
noncomputable def orientNormal (candidate : Vector3) : Vector3 :=
  Vector3.normalize
    (if candidate.lengthSq = 0 then ⟨0, 0, -1⟩
     else if candidate.z > 0 then candidate.multiplyScalar (-1)
     else candidate)

/-- All three vectors computed in the body of `computeBasis`; `right` is a
local of the function, `normal` and `up` are returned. -/
structure BasisVectors where
  normal : Vector3
  up : Vector3
  right : Vector3

/-- The body of `computeBasis`, keeping the local `right`. -/
noncomputable def computeBasisVectors (renderWidth renderHeight : ℝ) (landmarks : LandmarkSet) :
    BasisVectors :=
  let normal := orientNormal (candidateNormal renderWidth renderHeight landmarks)
  let up := Vector3.normalize (middleVec renderWidth renderHeight landmarks)
  let right := Vector3.normalize (Vector3.crossVectors up normal)
  let up := Vector3.normalize (Vector3.crossVectors normal right)
  ⟨normal, up, right⟩

/-- The object `{ normal, up }` returned by `computeBasis`. -/
structure Basis where
  normal : Vector3
  up : Vector3

/-- Model of `computeBasis(landmarks)`. -/
noncomputable def computeBasis (renderWidth renderHeight : ℝ) (landmarks : LandmarkSet) : Basis :=
  let b := computeBasisVectors renderWidth renderHeight landmarks
  ⟨b.normal, b.up⟩

/-! ## The overlay object and the module state -/

/-- Arguments from which `Object3D.lookAt` derives the quaternion of an object
without a rotated parent: its position, the target and its `up` vector. -/
structure LookAt where
  eye : Vector3
  target : Vector3
  up : Vector3

/-- The fields of `heartGroup` that `main.js` writes.  `scale` is the common
value of the three scale components (`main.js` only writes them through
`setScalar`); `quaternion` is `none` for the identity quaternion of a fresh
`THREE.Group` and otherwise records the last `lookAt` call. -/
structure HeartGroup where
  visible : Bool
  position : Vector3
  up : Vector3
  scale : ℝ
  quaternion : Option LookAt

/-- The module-level variables of `main.js`, together with counters tracing the
calls made to the tracker, the renderer and the repaint scheduler. -/
structure State where
  renderWidth : ℝ
  renderHeight : ℝ
  lastVideoTime : ℝ
  modelLoaded : Bool
  running : Bool
  scaleMultiplier : ℝ
  animationFrame : Option ℕ
  heartGroup : HeartGroup
  detectCalls : ℕ
  renderCalls : ℕ
  frameRequests : ℕ

/-- The state after the top-level statements of `main.js` have run and before
the model or the tracker has loaded. -/
def State.initial : State where
  renderWidth := 0
  renderHeight := 0
  lastVideoTime := -1
  modelLoaded := false
  running := false
  scaleMultiplier := 4
  animationFrame := none
  heartGroup := ⟨false, ⟨0, 0, 0⟩, ⟨0, 1, 0⟩, 1, none⟩
  detectCalls := 0
  renderCalls := 0
  frameRequests := 0

/-- What `handLandmarker.detectForVideo` does when called: it throws, or it
returns a result whose `landmarks` field may be absent. -/
inductive Detection where
  | throws : Detection
  | result (landmarks : Option (List LandmarkSet)) : Detection

/-- What a tick reads from its collaborators: the video element and the tracker. -/
structure Frame where
  videoWidth : ℝ
  videoHeight : ℝ
  currentTime : ℝ
  detection : Detection

/-- How a call ends: it returns, or an exception leaves it; either way with
the module state reached at that point. -/
inductive Outcome where
  | returned (s : State) : Outcome
  | threw (s : State) : Outcome

/-- The module state at the end of a call. -/
def Outcome.state : Outcome → State
  | .returned s => s
  | .threw s => s

/-- Whether the call ended by an exception. -/
def Outcome.failed : Outcome → Bool
  | .returned _ => false
  | .threw _ => true

/-! ## `updateHeartPose` -/

/-- The local `palmWidthPixels` of `updateHeartPose`. -/
noncomputable def palmWidthPixels (renderWidth renderHeight : ℝ) (landmarks : LandmarkSet) : ℝ :=
  hypot (((landmarks 5).x - (landmarks 17).x) * renderWidth)
    (((landmarks 5).y - (landmarks 17).y) * renderHeight)

/-- The local `baseScale` of `updateHeartPose`, as a function of the palm width. -/
noncomputable def baseScale (palmWidth : ℝ) : ℝ :=
  clamp (palmWidth / 180) 0.3 2.5

/-- The local `scale` of `updateHeartPose`, as a function of the palm width
and of `scaleMultiplier`. -/
noncomputable def appliedScale (palmWidth scaleMultiplier : ℝ) : ℝ :=
  clamp (baseScale palmWidth * scaleMultiplier) 0.2 8

/-- The local `centerScene` of `updateHeartPose`. -/
noncomputable def centerScene (renderWidth renderHeight : ℝ) (landmarks : LandmarkSet) : Vector3 :=
  landmarkToScene renderWidth renderHeight (averagePoint PALM_INDICES landmarks)

/-- Model of `updateHeartPose(landmarks)`. -/
noncomputable def updateHeartPose (landmarks : LandmarkSet) (s : State) : State :=
  if s.modelLoaded = false then s
  else
    let b := computeBasis s.renderWidth s.renderHeight landmarks
    let scale := appliedScale (palmWidthPixels s.renderWidth s.renderHeight landmarks)
      s.scaleMultiplier
    let position := (centerScene s.renderWidth s.renderHeight landmarks).add
      (b.normal.multiplyScalar heartOffset)
    { s with heartGroup :=
        { visible := true
          position := position
          up := b.up
          scale := scale
          quaternion := some ⟨position, position.sub b.normal, b.up⟩ } }

/-! ## The frame loop -/

/-- Model of `ensureRendererSize()`; `0` is the only falsy extent. -/
noncomputable def ensureRendererSize (f : Frame) (s : State) : State :=
  let needsResize := s.renderWidth ≠ f.videoWidth ∨ s.renderHeight ≠ f.videoHeight
  if ¬ needsResize ∧ s.renderWidth ≠ 0 ∧ s.renderHeight ≠ 0 then s
  else { s with renderWidth := f.videoWidth, renderHeight := f.videoHeight }

/-- Model of `animationFrame = requestAnimationFrame(predictLoop)`: one more
request is counted and its handle is stored. -/
def requestFrame (s : State) : State :=
  { s with frameRequests := s.frameRequests + 1, animationFrame := some (s.frameRequests + 1) }

/-- Model of `renderer.render(threeScene, orthoCamera)`. -/
def render (s : State) : State :=
  { s with renderCalls := s.renderCalls + 1 }

/-- Model of one call of `predictLoop()`.  The function has no `try`, so an
exception of `detectForVideo` leaves it at the call, after `lastVideoTime` has
been written.  `running` is only set by `start()` once `handLandmarker` is
loaded, so the tracker object is present whenever the body runs. -/
noncomputable def predictLoop (f : Frame) (s : State) : Outcome :=
  if s.running = false then .returned s
  else
    let s := ensureRendererSize f s
    if f.currentTime = s.lastVideoTime then .returned (requestFrame s)
    else
      let s := { s with lastVideoTime := f.currentTime }
      let s := { s with detectCalls := s.detectCalls + 1 }
      match f.detection with
      | .throws => .threw s
      | .result landmarks =>
        let hands := landmarks.getD []
        let s :=
          match hands with
          | hand :: _ => updateHeartPose hand s
          | [] => { s with heartGroup := { s.heartGroup with visible := false } }
        .returned (requestFrame (render s))

/-- Model of `stop()`, restricted to the module state. -/
def stop (s : State) : State :=
  render
    { s with
      running := false
      animationFrame := none
      heartGroup := { s.heartGroup with visible := false } }

/-- Model of the tail of `start()` once the camera plays: `running = true`,
`ensureRendererSize()`, `predictLoop()`; the `catch` of `start` swallows an
exception of that first tick. -/
noncomputable def start (f : Frame) (s : State) : State :=
  (predictLoop f (ensureRendererSize f { s with running := true })).state

/-- Model of the GLTF loader's success callback: `modelLoaded = true`. -/
def modelLoadCompleted (s : State) : State :=
  { s with modelLoaded := true }

/-- Model of the slider's `input` listener: `scaleMultiplier = Number(value)`. -/
def setScaleMultiplier (value : ℝ) (s : State) : State :=
  { s with scaleMultiplier := value }

/-- States reachable from the initial state by the events of the page: the
model finishing to load, the slider, the start button, repaint ticks and stop. -/
inductive Reachable : State → Prop where
  | initial : Reachable State.initial
  | modelLoad {s : State} : Reachable s → Reachable (modelLoadCompleted s)
  | slider {s : State} (value : ℝ) : Reachable s → Reachable (setScaleMultiplier value s)
  | start {s : State} (f : Frame) : Reachable s → s.running = false → Reachable (start f s)
  | tick {s : State} (f : Frame) : Reachable s → Reachable (predictLoop f s).state
  | stop {s : State} : Reachable s → Reachable (stop s)

/-! ## Inputs named by the properties -/

/-- The landmark set in which the index-base (5) and pinky-base (17)
landmarks are exchanged. -/
def swapIndexPinky (landmarks : LandmarkSet) : LandmarkSet :=
  fun i => if i = 5 then landmarks 17 else if i = 17 then landmarks 5 else landmarks i

/-- A landmark set that is `wrist` at index 0, `indexBase` at 5, `middleBase`
at 9, `ring` at 13, `pinkyBase` at 17 and `other` elsewhere. -/
def palmLandmarks (wrist indexBase middleBase ring pinkyBase other : Landmark) : LandmarkSet :=
  fun i =>
    match i.val with
    | 0 => wrist
    | 5 => indexBase
    | 9 => middleBase
    | 13 => ring
    | 17 => pinkyBase
    | _ => other

/-- The palm of the end-to-end scenario: wrist (0.5, 0.6, 0), index base
(0.45, 0.4, 0), pinky base (0.55, 0.4, 0), middle base (0.5, 0.35, 0). -/
noncomputable def scenarioLandmarks : LandmarkSet :=
  palmLandmarks ⟨0.5, 0.6, some 0⟩ ⟨0.45, 0.4, some 0⟩ ⟨0.5, 0.35, some 0⟩ ⟨0.5, 0.4, some 0⟩
    ⟨0.55, 0.4, some 0⟩ ⟨0.5, 0.5, some 0⟩

/-- A hand collapsed to one point: every landmark is (0.5, 0.5) without depth. -/
noncomputable def collapsedLandmarks : LandmarkSet :=
  fun _ => ⟨0.5, 0.5, none⟩

/-- The scenario palm with the middle base (9) moved onto the wrist (0.5, 0.6, 0). -/
noncomputable def middleAtWristLandmarks : LandmarkSet :=
  palmLandmarks ⟨0.5, 0.6, some 0⟩ ⟨0.45, 0.4, some 0⟩ ⟨0.5, 0.6, some 0⟩ ⟨0.5, 0.4, some 0⟩
    ⟨0.55, 0.4, some 0⟩ ⟨0.5, 0.5, some 0⟩

/-- A hand whose index base (0.5, 0.5, 0) and pinky base (0.5, 0.5, 1) differ
in depth only. -/
noncomputable def depthOnlyLandmarks : LandmarkSet :=
  palmLandmarks ⟨0.5, 0.6, some 0⟩ ⟨0.5, 0.5, some 0⟩ ⟨0.5, 0.35, some 0⟩ ⟨0.5, 0.4, some 0⟩
    ⟨0.5, 0.5, some 1⟩ ⟨0.5, 0.5, some 0⟩

/-- A running session on a 640 x 480 video with the model loaded and
`scaleMultiplier = 1`; no frame has been processed yet. -/
def scenarioState : State :=
  { State.initial with
    renderWidth := 640
    renderHeight := 480
    modelLoaded := true
    running := true
    scaleMultiplier := 1 }

/-- A 640 x 480 video frame at playback time 0 on which the tracker throws. -/
def throwingFrame : Frame := ⟨640, 480, 0, .throws⟩

/-- A 640 x 480 video frame at playback time 0 on which the tracker reports
the scenario palm. -/
noncomputable def scenarioFrame : Frame := ⟨640, 480, 0, .result (some [scenarioLandmarks])⟩

/-- A 640 x 480 video frame still at playback time -1, the initial `lastVideoTime`. -/
noncomputable def staleFrame : Frame := ⟨640, 480, -1, .result (some [scenarioLandmarks])⟩

/-- A 640 x 480 video frame at playback time 1 on which the tracker reports no hand. -/
def emptyFrame : Frame := ⟨640, 480, 1, .result (some [])⟩

/-! ## Vector algebra used by the proofs -/

namespace Vector3

theorem length_eq_sqrt (v : Vector3) : length v = Real.sqrt (lengthSq v) := rfl

theorem lengthSq_nonneg (v : Vector3) : 0 ≤ lengthSq v := by
  unfold lengthSq
  nlinarith [mul_self_nonneg v.x, mul_self_nonneg v.y, mul_self_nonneg v.z]

theorem lengthSq_eq_zero_iff (v : Vector3) : lengthSq v = 0 ↔ v = ⟨0, 0, 0⟩ := by
  constructor
  · intro h
    unfold lengthSq at h
    have hx : v.x = 0 := by
      nlinarith [mul_self_nonneg v.x, mul_self_nonneg v.y, mul_self_nonneg v.z]
    have hy : v.y = 0 := by
      nlinarith [mul_self_nonneg v.x, mul_self_nonneg v.y, mul_self_nonneg v.z]
    have hz : v.z = 0 := by
      nlinarith [mul_self_nonneg v.x, mul_self_nonneg v.y, mul_self_nonneg v.z]
    ext <;> simp [hx, hy, hz]
  · intro h
    subst h
    simp [lengthSq]

theorem length_eq_zero_iff (v : Vector3) : length v = 0 ↔ lengthSq v = 0 := by
  rw [length_eq_sqrt, Real.sqrt_eq_zero (lengthSq_nonneg v)]

theorem length_mul_self (v : Vector3) : length v * length v = lengthSq v := by
  rw [length_eq_sqrt]
  exact Real.mul_self_sqrt (lengthSq_nonneg v)

theorem length_eq_one_of_lengthSq (v : Vector3) (h : lengthSq v = 1) : length v = 1 := by
  rw [length_eq_sqrt, h, Real.sqrt_one]

theorem lengthSq_multiplyScalar (v : Vector3) (s : ℝ) :
    lengthSq (multiplyScalar v s) = s * s * lengthSq v := by
  simp only [lengthSq, multiplyScalar]
  ring

theorem dot_multiplyScalar_left (a b : Vector3) (s : ℝ) :
    dot (multiplyScalar a s) b = s * dot a b := by
  simp only [dot, multiplyScalar]
  ring

theorem dot_multiplyScalar_right (a b : Vector3) (s : ℝ) :
    dot a (multiplyScalar b s) = s * dot a b := by
  simp only [dot, multiplyScalar]
  ring

theorem cross_multiplyScalar_left (a b : Vector3) (s : ℝ) :
    crossVectors (multiplyScalar a s) b = multiplyScalar (crossVectors a b) s := by
  ext <;> simp only [crossVectors, multiplyScalar] <;> ring

theorem cross_multiplyScalar_right (a b : Vector3) (s : ℝ) :
    crossVectors a (multiplyScalar b s) = multiplyScalar (crossVectors a b) s := by
  ext <;> simp only [crossVectors, multiplyScalar] <;> ring

theorem multiplyScalar_multiplyScalar (a : Vector3) (s t : ℝ) :
    multiplyScalar (multiplyScalar a s) t = multiplyScalar a (s * t) := by
  ext <;> simp only [multiplyScalar] <;> ring

theorem multiplyScalar_one (a : Vector3) : multiplyScalar a 1 = a := by
  ext <;> simp [multiplyScalar]

theorem dot_cross_left (a b : Vector3) : dot (crossVectors a b) a = 0 := by
  simp only [dot, crossVectors]
  ring

theorem dot_cross_right (a b : Vector3) : dot (crossVectors a b) b = 0 := by
  simp only [dot, crossVectors]
  ring

theorem dot_comm (a b : Vector3) : dot a b = dot b a := by
  simp only [dot]
  ring

/-- Lagrange's identity for the cross product. -/
theorem lengthSq_cross (a b : Vector3) :
    lengthSq (crossVectors a b) = lengthSq a * lengthSq b - dot a b * dot a b := by
  simp only [lengthSq, dot, crossVectors]
  ring

/-- The vector triple product `(a × b) × a`. -/
theorem cross_cross_self (a b : Vector3) :
    crossVectors (crossVectors a b) a
      = sub (multiplyScalar b (lengthSq a)) (multiplyScalar a (dot a b)) := by
  ext <;> simp only [crossVectors, sub, multiplyScalar, lengthSq, dot] <;> ring

theorem normalize_eq (v : Vector3) : normalize v = multiplyScalar v (normFactor v) := rfl

theorem length_nonneg (v : Vector3) : 0 ≤ length v := Real.sqrt_nonneg _

theorem normFactor_pos (v : Vector3) : 0 < normFactor v := by
  unfold normFactor
  split_ifs with h
  · norm_num
  · have : 0 < length v := lt_of_le_of_ne (length_nonneg v) (Ne.symm h)
    positivity

theorem normalize_of_lengthSq_eq_zero (v : Vector3) (h : lengthSq v = 0) : normalize v = v := by
  have h0 : length v = 0 := (length_eq_zero_iff v).2 h
  rw [normalize_eq, normFactor, if_pos h0]
  simp [multiplyScalar]

theorem normalize_of_lengthSq_eq_one (v : Vector3) (h : lengthSq v = 1) : normalize v = v := by
  have h1 : length v = 1 := length_eq_one_of_lengthSq v h
  rw [normalize_eq, normFactor, h1]
  simp [multiplyScalar]

theorem lengthSq_normalize (v : Vector3) (h : lengthSq v ≠ 0) : lengthSq (normalize v) = 1 := by
  have h0 : length v ≠ 0 := fun e => h ((length_eq_zero_iff v).1 e)
  rw [normalize_eq, lengthSq_multiplyScalar, normFactor, if_neg h0, ← length_mul_self v]
  field_simp

theorem length_normalize (v : Vector3) (h : lengthSq v ≠ 0) : length (normalize v) = 1 :=
  length_eq_one_of_lengthSq _ (lengthSq_normalize v h)

theorem lengthSq_multiplyScalar_ne_zero (v : Vector3) (s : ℝ) (hs : s ≠ 0) (h : lengthSq v ≠ 0) :
    lengthSq (multiplyScalar v s) ≠ 0 := by
  rw [lengthSq_multiplyScalar]
  exact mul_ne_zero (mul_ne_zero hs hs) h

theorem normalize_z (v : Vector3) : (normalize v).z = v.z * normFactor v := rfl

end Vector3

/-! ## Facts about `computeBasis` -/

theorem palmLandmarks_zero (w a m r p o : Landmark) : palmLandmarks w a m r p o 0 = w := rfl

theorem palmLandmarks_five (w a m r p o : Landmark) : palmLandmarks w a m r p o 5 = a := rfl

theorem palmLandmarks_nine (w a m r p o : Landmark) : palmLandmarks w a m r p o 9 = m := rfl

theorem palmLandmarks_thirteen (w a m r p o : Landmark) : palmLandmarks w a m r p o 13 = r := rfl

theorem palmLandmarks_seventeen (w a m r p o : Landmark) : palmLandmarks w a m r p o 17 = p := rfl

theorem orientNormal_of_lengthSq_eq_zero (c : Vector3) (h : c.lengthSq = 0) :
    orientNormal c = ⟨0, 0, -1⟩ := by
  unfold orientNormal
  rw [if_pos h]
  apply Vector3.normalize_of_lengthSq_eq_one
  simp [Vector3.lengthSq]

/-- In the non-degenerate case the returned normal is a non-zero multiple of
the candidate, with the sign opposite to the candidate's depth when that is positive. -/
theorem orientNormal_eq_multiplyScalar (c : Vector3) (h : c.lengthSq ≠ 0) :
    ∃ k : ℝ, k ≠ 0 ∧ (0 < c.z → k < 0) ∧ (¬ 0 < c.z → 0 < k) ∧
      orientNormal c = c.multiplyScalar k := by
  unfold orientNormal
  rw [if_neg h]
  by_cases hz : c.z > 0
  · rw [if_pos hz, Vector3.normalize_eq, Vector3.multiplyScalar_multiplyScalar]
    have hk := Vector3.normFactor_pos (c.multiplyScalar (-1))
    exact ⟨_, by linarith, fun _ => by linarith, fun hn => absurd hz hn, rfl⟩
  · rw [if_neg hz, Vector3.normalize_eq]
    have hk := Vector3.normFactor_pos c
    exact ⟨_, ne_of_gt hk, fun hp => absurd hp hz, fun _ => hk, rfl⟩

theorem lengthSq_orientNormal (c : Vector3) : (orientNormal c).lengthSq = 1 := by
  by_cases h : c.lengthSq = 0
  · rw [orientNormal_of_lengthSq_eq_zero c h]
    simp [Vector3.lengthSq]
  · unfold orientNormal
    rw [if_neg h]
    apply Vector3.lengthSq_normalize
    split_ifs
    · exact Vector3.lengthSq_multiplyScalar_ne_zero c (-1) (by norm_num) h
    · exact h

theorem orientNormal_z_nonpos (c : Vector3) : (orientNormal c).z ≤ 0 := by
  by_cases h : c.lengthSq = 0
  · rw [orientNormal_of_lengthSq_eq_zero c h]
    norm_num
  · obtain ⟨k, _, hneg, hpos, hk⟩ := orientNormal_eq_multiplyScalar c h
    rw [hk]
    show c.z * k ≤ 0
    by_cases hz : 0 < c.z
    · exact le_of_lt (mul_neg_of_pos_of_neg hz (hneg hz))
    · exact mul_nonpos_of_nonpos_of_nonneg (not_lt.1 hz) (le_of_lt (hpos hz))

theorem orientNormal_z_neg (c : Vector3) (hz : c.z ≠ 0) : (orientNormal c).z < 0 := by
  have h : c.lengthSq ≠ 0 := by
    intro e
    rw [Vector3.lengthSq_eq_zero_iff] at e
    exact hz (by rw [e])
  obtain ⟨k, _, hneg, hpos, hk⟩ := orientNormal_eq_multiplyScalar c h
  rw [hk]
  show c.z * k < 0
  by_cases hp : 0 < c.z
  · exact mul_neg_of_pos_of_neg hp (hneg hp)
  · exact mul_neg_of_neg_of_pos (lt_of_le_of_ne (not_lt.1 hp) hz) (hpos hp)

theorem multiplyScalar_neg_one_twice (c : Vector3) :
    (c.multiplyScalar (-1)).multiplyScalar (-1) = c := by
  ext <;> simp [Vector3.multiplyScalar]

theorem orientNormal_neg (c : Vector3) (hz : c.z ≠ 0) :
    orientNormal (c.multiplyScalar (-1)) = orientNormal c := by
  have h : c.lengthSq ≠ 0 := by
    intro e
    rw [Vector3.lengthSq_eq_zero_iff] at e
    exact hz (by rw [e])
  have h' : (c.multiplyScalar (-1)).lengthSq ≠ 0 :=
    Vector3.lengthSq_multiplyScalar_ne_zero c (-1) (by norm_num) h
  have hzm : (c.multiplyScalar (-1)).z = -c.z := by simp [Vector3.multiplyScalar]
  unfold orientNormal
  rw [if_neg h, if_neg h', hzm, multiplyScalar_neg_one_twice]
  rcases lt_or_gt_of_ne hz with hneg | hpos
  · rw [if_pos (by linarith : -c.z > 0), if_neg (by linarith : ¬ c.z > 0)]
  · rw [if_neg (by linarith : ¬ -c.z > 0), if_pos hpos]

theorem candidateNormal_swapIndexPinky (W H : ℝ) (lm : LandmarkSet) :
    candidateNormal W H (swapIndexPinky lm) = (candidateNormal W H lm).multiplyScalar (-1) := by
  have h0 : swapIndexPinky lm 0 = lm 0 := rfl
  have h5 : swapIndexPinky lm 5 = lm 17 := rfl
  have h17 : swapIndexPinky lm 17 = lm 5 := rfl
  unfold candidateNormal indexVec pinkyVec
  rw [h0, h5, h17]
  ext <;> simp only [Vector3.crossVectors, Vector3.sub, Vector3.multiplyScalar] <;> ring

theorem computeBasis_normal (W H : ℝ) (lm : LandmarkSet) :
    (computeBasis W H lm).normal = orientNormal (candidateNormal W H lm) := rfl

/-- The frame built by the last three statements of `computeBasis` from a unit
normal `n` and a reference `u0` with `u0 × n ≠ 0`. -/
theorem frame_of_unit_normal (n u0 : Vector3) (hn : n.lengthSq = 1)
    (hw : (Vector3.crossVectors u0 n).lengthSq ≠ 0) :
    (Vector3.normalize (Vector3.crossVectors u0 n)).lengthSq = 1 ∧
    Vector3.dot n (Vector3.normalize (Vector3.crossVectors u0 n)) = 0 ∧
    Vector3.normalize
        (Vector3.crossVectors n (Vector3.normalize (Vector3.crossVectors u0 n)))
      = Vector3.crossVectors n (Vector3.normalize (Vector3.crossVectors u0 n)) ∧
    (Vector3.crossVectors n (Vector3.normalize (Vector3.crossVectors u0 n))).lengthSq = 1 := by
  have hr : (Vector3.normalize (Vector3.crossVectors u0 n)).lengthSq = 1 :=
    Vector3.lengthSq_normalize _ hw
  have hd : Vector3.dot n (Vector3.normalize (Vector3.crossVectors u0 n)) = 0 := by
    rw [Vector3.normalize_eq, Vector3.dot_multiplyScalar_right, Vector3.dot_comm,
      Vector3.dot_cross_right, mul_zero]
  have hu : (Vector3.crossVectors n
      (Vector3.normalize (Vector3.crossVectors u0 n))).lengthSq = 1 := by
    rw [Vector3.lengthSq_cross, hn, hr, hd]
    norm_num
  exact ⟨hr, hd, Vector3.normalize_of_lengthSq_eq_one _ hu, hu⟩

theorem cross_normalize_orientNormal (m c : Vector3) (hc : c.lengthSq ≠ 0)
    (hp : (Vector3.crossVectors m c).lengthSq ≠ 0) :
    (Vector3.crossVectors (Vector3.normalize m) (orientNormal c)).lengthSq ≠ 0 := by
  obtain ⟨k, hk, _, _, hkc⟩ := orientNormal_eq_multiplyScalar c hc
  rw [hkc, Vector3.normalize_eq, Vector3.cross_multiplyScalar_left,
    Vector3.cross_multiplyScalar_right, Vector3.multiplyScalar_multiplyScalar]
  exact Vector3.lengthSq_multiplyScalar_ne_zero _ _
    (mul_ne_zero hk (ne_of_gt (Vector3.normFactor_pos m))) hp

theorem lengthSq_ne_zero_of_ne (v : Vector3) (h : v ≠ ⟨0, 0, 0⟩) : v.lengthSq ≠ 0 :=
  fun e => h ((Vector3.lengthSq_eq_zero_iff v).1 e)

/-! ## The properties of `computeBasis` -/

/-- C1: for a positive render extent and a non-degenerate landmark set (the
candidate normal `indexVec × pinkyVec` is non-zero, the mapped middle-base minus
wrist vector is non-zero and not parallel to it), the vectors `normal`, `right`
and `up` computed by `computeBasis` have length 1, are pairwise orthogonal and
satisfy `right = up × normal`. -/
theorem computeBasis_orthonormal (W H : ℝ) (lm : LandmarkSet) (_hW : 0 < W) (_hH : 0 < H)
    (hc : candidateNormal W H lm ≠ ⟨0, 0, 0⟩)
    (_hm : middleVec W H lm ≠ ⟨0, 0, 0⟩)
    (hp : Vector3.crossVectors (middleVec W H lm) (candidateNormal W H lm) ≠ ⟨0, 0, 0⟩) :
    (computeBasis W H lm).normal.length = 1 ∧
    (computeBasisVectors W H lm).right.length = 1 ∧
    (computeBasis W H lm).up.length = 1 ∧
    Vector3.dot (computeBasis W H lm).normal (computeBasisVectors W H lm).right = 0 ∧
    Vector3.dot (computeBasis W H lm).normal (computeBasis W H lm).up = 0 ∧
    Vector3.dot (computeBasis W H lm).up (computeBasisVectors W H lm).right = 0 ∧
    (computeBasisVectors W H lm).right
      = Vector3.crossVectors (computeBasis W H lm).up (computeBasis W H lm).normal := by
  have hn := lengthSq_orientNormal (candidateNormal W H lm)
  have hw := cross_normalize_orientNormal (middleVec W H lm) (candidateNormal W H lm)
    (lengthSq_ne_zero_of_ne _ hc) (lengthSq_ne_zero_of_ne _ hp)
  obtain ⟨hr, hd, hu, hul⟩ := frame_of_unit_normal _ _ hn hw
  simp only [computeBasis, computeBasisVectors]
  rw [hu]
  refine ⟨Vector3.length_eq_one_of_lengthSq _ hn, Vector3.length_eq_one_of_lengthSq _ hr,
    Vector3.length_eq_one_of_lengthSq _ hul, hd, ?_, Vector3.dot_cross_right _ _, ?_⟩
  · rw [Vector3.dot_comm, Vector3.dot_cross_left]
  · rw [Vector3.cross_cross_self, hn, hd, Vector3.multiplyScalar_one]
    ext <;> simp [Vector3.sub, Vector3.multiplyScalar]

/-- C3: when the mapped vectors `indexBase - wrist` and `pinkyBase - wrist` are
collinear (their cross product is the zero vector), `computeBasis` returns
exactly the default normal `(0, 0, -1)`. -/
theorem computeBasis_collinear_default_normal (W H : ℝ) (lm : LandmarkSet)
    (h : Vector3.crossVectors (indexVec W H lm) (pinkyVec W H lm) = ⟨0, 0, 0⟩) :
    (computeBasis W H lm).normal = ⟨0, 0, -1⟩ := by
  rw [computeBasis_normal]
  exact orientNormal_of_lengthSq_eq_zero _
    ((Vector3.lengthSq_eq_zero_iff _).2 h)

/-- C4: the normal returned by `computeBasis` has non-positive depth; its depth is
negative whenever the candidate normal `indexVec × pinkyVec` has non-zero depth,
and in that case exchanging the index-base and pinky-base landmarks gives the
same normal. -/
theorem computeBasis_normal_sign (W H : ℝ) (lm : LandmarkSet) :
    (computeBasis W H lm).normal.z ≤ 0 ∧
    ((candidateNormal W H lm).z ≠ 0 → (computeBasis W H lm).normal.z < 0) ∧
    ((candidateNormal W H lm).z ≠ 0 →
      (computeBasis W H (swapIndexPinky lm)).normal = (computeBasis W H lm).normal) := by
  refine ⟨orientNormal_z_nonpos _, orientNormal_z_neg _, fun hz => ?_⟩
  rw [computeBasis_normal, computeBasis_normal, candidateNormal_swapIndexPinky]
  exact orientNormal_neg _ hz

theorem candidateNormal_scenario :
    candidateNormal 640 480 scenarioLandmarks = ⟨0, 0, -6144⟩ := by
  simp only [candidateNormal, indexVec, pinkyVec, scenarioLandmarks, palmLandmarks_zero,
    palmLandmarks_five, palmLandmarks_seventeen, landmarkToScene, Vector3.sub,
    Vector3.crossVectors, Option.getD_some, depthScale]
  ext <;> norm_num

theorem middleVec_scenario : middleVec 640 480 scenarioLandmarks = ⟨0, 120, 0⟩ := by
  simp only [middleVec, scenarioLandmarks, palmLandmarks_zero, palmLandmarks_nine,
    landmarkToScene, Vector3.sub, Option.getD_some, depthScale]
  ext <;> norm_num

/-- The scenario palm on a 640 x 480 extent is non-degenerate, so the frame
computed from it is orthonormal and right-handed. -/
theorem computeBasis_orthonormal_witness :
    (computeBasis 640 480 scenarioLandmarks).normal.length = 1 ∧
    (computeBasisVectors 640 480 scenarioLandmarks).right.length = 1 ∧
    (computeBasis 640 480 scenarioLandmarks).up.length = 1 ∧
    Vector3.dot (computeBasis 640 480 scenarioLandmarks).normal
      (computeBasisVectors 640 480 scenarioLandmarks).right = 0 ∧
    Vector3.dot (computeBasis 640 480 scenarioLandmarks).normal
      (computeBasis 640 480 scenarioLandmarks).up = 0 ∧
    Vector3.dot (computeBasis 640 480 scenarioLandmarks).up
      (computeBasisVectors 640 480 scenarioLandmarks).right = 0 ∧
    (computeBasisVectors 640 480 scenarioLandmarks).right
      = Vector3.crossVectors (computeBasis 640 480 scenarioLandmarks).up
          (computeBasis 640 480 scenarioLandmarks).normal :=
  computeBasis_orthonormal 640 480 scenarioLandmarks (by norm_num) (by norm_num)
    (by
      rw [candidateNormal_scenario]
      intro h
      have hz := congrArg Vector3.z h
      norm_num at hz)
    (by
      rw [middleVec_scenario]
      intro h
      have hy := congrArg Vector3.y h
      norm_num at hy)
    (by
      rw [candidateNormal_scenario, middleVec_scenario]
      intro h
      have hx := congrArg Vector3.x h
      norm_num [Vector3.crossVectors] at hx)

/-- A hand collapsed to one point has collinear index and pinky vectors and
gets the default normal. -/
theorem computeBasis_collinear_default_normal_witness :
    Vector3.crossVectors (indexVec 640 480 collapsedLandmarks)
        (pinkyVec 640 480 collapsedLandmarks) = ⟨0, 0, 0⟩ ∧
    (computeBasis 640 480 collapsedLandmarks).normal = ⟨0, 0, -1⟩ :=
  have h : Vector3.crossVectors (indexVec 640 480 collapsedLandmarks)
      (pinkyVec 640 480 collapsedLandmarks) = ⟨0, 0, 0⟩ := by
    simp only [indexVec, pinkyVec, collapsedLandmarks, landmarkToScene, Vector3.sub,
      Vector3.crossVectors]
    ext <;> norm_num
  ⟨h, computeBasis_collinear_default_normal 640 480 collapsedLandmarks h⟩

/-- The scenario palm has a candidate normal of depth -6144, so the returned
normal has negative depth and is unchanged by exchanging landmarks 5 and 17. -/
theorem computeBasis_normal_sign_witness :
    (candidateNormal 640 480 scenarioLandmarks).z ≠ 0 ∧
    (computeBasis 640 480 scenarioLandmarks).normal.z < 0 ∧
    (computeBasis 640 480 (swapIndexPinky scenarioLandmarks)).normal
      = (computeBasis 640 480 scenarioLandmarks).normal :=
  have h : (candidateNormal 640 480 scenarioLandmarks).z ≠ 0 := by
    rw [candidateNormal_scenario]
    norm_num
  ⟨h, (computeBasis_normal_sign 640 480 scenarioLandmarks).2.1 h,
    (computeBasis_normal_sign 640 480 scenarioLandmarks).2.2 h⟩

theorem cross_zero_left (n : Vector3) : Vector3.crossVectors ⟨0, 0, 0⟩ n = ⟨0, 0, 0⟩ := by
  ext <;> simp [Vector3.crossVectors]

theorem cross_zero_right (n : Vector3) : Vector3.crossVectors n ⟨0, 0, 0⟩ = ⟨0, 0, 0⟩ := by
  ext <;> simp [Vector3.crossVectors]

theorem normalize_zero : Vector3.normalize ⟨0, 0, 0⟩ = ⟨0, 0, 0⟩ :=
  Vector3.normalize_of_lengthSq_eq_zero _ (by simp [Vector3.lengthSq])

theorem length_zero : Vector3.length ⟨0, 0, 0⟩ = 0 := by
  simp [Vector3.length]

/-- When the mapped middle base coincides with the mapped wrist, `up` and
`right` come out as the zero vector. -/
theorem computeBasisVectors_of_middleVec_zero (W H : ℝ) (lm : LandmarkSet)
    (h : middleVec W H lm = ⟨0, 0, 0⟩) :
    (computeBasisVectors W H lm).up = ⟨0, 0, 0⟩ ∧
    (computeBasisVectors W H lm).right = ⟨0, 0, 0⟩ := by
  simp only [computeBasisVectors, h, normalize_zero, cross_zero_left, cross_zero_right,
    and_self]

theorem middleVec_middleAtWrist : middleVec 640 480 middleAtWristLandmarks = ⟨0, 0, 0⟩ := by
  simp only [middleVec, middleAtWristLandmarks, palmLandmarks_zero, palmLandmarks_nine,
    landmarkToScene, Vector3.sub]
  ext <;> norm_num

/-- C2: on the scenario palm with the middle base moved onto the wrist (finite
coordinates, extent 640 x 480) `computeBasis` returns the unit normal
`(0, 0, -1)` but an `up` vector of length 0, and its local `right` has
length 0 as well: the basis is not unit-length. -/
theorem computeBasis_middleAtWrist_up_zero :
    (computeBasis 640 480 middleAtWristLandmarks).normal.length = 1 ∧
    (computeBasis 640 480 middleAtWristLandmarks).up = ⟨0, 0, 0⟩ ∧
    (computeBasis 640 480 middleAtWristLandmarks).up.length = 0 ∧
    (computeBasisVectors 640 480 middleAtWristLandmarks).right.length = 0 := by
  have h := computeBasisVectors_of_middleVec_zero 640 480 middleAtWristLandmarks
    middleVec_middleAtWrist
  have hup : (computeBasis 640 480 middleAtWristLandmarks).up = ⟨0, 0, 0⟩ := h.1
  refine ⟨Vector3.length_eq_one_of_lengthSq _ (lengthSq_orientNormal _), hup, ?_, ?_⟩
  · rw [hup, length_zero]
  · rw [h.2, length_zero]

/-! ## The properties of `updateHeartPose` -/

theorem palmWidthPixels_depthOnly : palmWidthPixels 640 480 depthOnlyLandmarks = 0 := by
  simp only [palmWidthPixels, hypot, depthOnlyLandmarks, palmLandmarks_five,
    palmLandmarks_seventeen]
  norm_num

theorem distanceTo_depthOnly :
    Vector3.distanceTo (landmarkToScene 640 480 (depthOnlyLandmarks 5))
      (landmarkToScene 640 480 (depthOnlyLandmarks 17)) = 420 := by
  simp only [Vector3.distanceTo, depthOnlyLandmarks, palmLandmarks_five,
    palmLandmarks_seventeen, landmarkToScene, Option.getD_some, depthScale]
  have h : ((0.5 : ℝ) * 640 - 640 / 2 - (0.5 * 640 - 640 / 2)) *
        (0.5 * 640 - 640 / 2 - (0.5 * 640 - 640 / 2)) +
      (480 / 2 - 0.5 * 480 - (480 / 2 - 0.5 * 480)) *
        (480 / 2 - 0.5 * 480 - (480 / 2 - 0.5 * 480)) +
      (0 * 420 - 1 * 420) * (0 * 420 - 1 * 420) = 420 * 420 := by
    norm_num
  rw [h, Real.sqrt_mul_self (by norm_num)]

/-- C5, as stated, fails: for an index base (0.5, 0.5, 0) and a pinky base
(0.5, 0.5, 1) on a 640 x 480 extent the palm width is 0, while the mapped
points are 420 apart in render space. -/
theorem palmWidthPixels_ne_distance :
    palmWidthPixels 640 480 depthOnlyLandmarks = 0 ∧
    Vector3.distanceTo (landmarkToScene 640 480 (depthOnlyLandmarks 5))
      (landmarkToScene 640 480 (depthOnlyLandmarks 17)) = 420 ∧
    palmWidthPixels 640 480 depthOnlyLandmarks ≠
      Vector3.distanceTo (landmarkToScene 640 480 (depthOnlyLandmarks 5))
        (landmarkToScene 640 480 (depthOnlyLandmarks 17)) := by
  refine ⟨palmWidthPixels_depthOnly, distanceTo_depthOnly, ?_⟩
  rw [palmWidthPixels_depthOnly, distanceTo_depthOnly]
  norm_num

/-- C5, amended: the palm width equals the distance between the image-plane
(`x`, `y`) projections of the mapped index-base and pinky-base points, depth
ignored; it equals their full render-space distance when the two landmarks
have the same depth. -/
theorem palmWidthPixels_eq_planarDistance (W H : ℝ) (lm : LandmarkSet) :
    palmWidthPixels W H lm =
      Vector3.planarDistanceTo (landmarkToScene W H (lm 5)) (landmarkToScene W H (lm 17)) ∧
    ((lm 5).z.getD 0 = (lm 17).z.getD 0 →
      palmWidthPixels W H lm =
        Vector3.distanceTo (landmarkToScene W H (lm 5)) (landmarkToScene W H (lm 17))) := by
  constructor
  · simp only [palmWidthPixels, hypot, Vector3.planarDistanceTo, landmarkToScene]
    congr 1
    ring
  · intro hz
    simp only [palmWidthPixels, hypot, Vector3.distanceTo, landmarkToScene, hz]
    congr 1
    ring

/-- The index and pinky bases of the scenario palm both have depth 0, so its
palm width is also the full render-space distance of the mapped points. -/
theorem palmWidthPixels_eq_planarDistance_witness :
    (scenarioLandmarks 5).z.getD 0 = (scenarioLandmarks 17).z.getD 0 ∧
    palmWidthPixels 640 480 scenarioLandmarks =
      Vector3.distanceTo (landmarkToScene 640 480 (scenarioLandmarks 5))
        (landmarkToScene 640 480 (scenarioLandmarks 17)) :=
  have h : (scenarioLandmarks 5).z.getD 0 = (scenarioLandmarks 17).z.getD 0 := rfl
  ⟨h, (palmWidthPixels_eq_planarDistance 640 480 scenarioLandmarks).2 h⟩

theorem baseScale_bounds (pw : ℝ) : 0.3 ≤ baseScale pw ∧ baseScale pw ≤ 2.5 := by
  unfold baseScale clamp
  refine ⟨le_max_left _ _, max_le (by norm_num) (min_le_left _ _)⟩

theorem appliedScale_bounds (pw sm : ℝ) : 0.2 ≤ appliedScale pw sm ∧ appliedScale pw sm ≤ 8 := by
  unfold appliedScale clamp
  refine ⟨le_max_left _ _, max_le (by norm_num) (min_le_left _ _)⟩

theorem appliedScale_one (pw : ℝ) : appliedScale pw 1 = baseScale pw := by
  obtain ⟨h1, h2⟩ := baseScale_bounds pw
  unfold appliedScale clamp
  rw [mul_one, min_eq_right (by linarith), max_eq_right (by linarith)]

theorem appliedScale_hundred (pw : ℝ) : appliedScale pw 100 = 8 := by
  obtain ⟨h1, h2⟩ := baseScale_bounds pw
  unfold appliedScale clamp
  rw [min_eq_left (by linarith), max_eq_right (by norm_num)]

theorem updateHeartPose_of_loaded (lm : LandmarkSet) (s : State) (hl : s.modelLoaded = true) :
    (updateHeartPose lm s).heartGroup =
      { visible := true
        position := (centerScene s.renderWidth s.renderHeight lm).add
          ((computeBasis s.renderWidth s.renderHeight lm).normal.multiplyScalar heartOffset)
        up := (computeBasis s.renderWidth s.renderHeight lm).up
        scale := appliedScale (palmWidthPixels s.renderWidth s.renderHeight lm) s.scaleMultiplier
        quaternion := some
          ⟨(centerScene s.renderWidth s.renderHeight lm).add
            ((computeBasis s.renderWidth s.renderHeight lm).normal.multiplyScalar heartOffset),
           ((centerScene s.renderWidth s.renderHeight lm).add
            ((computeBasis s.renderWidth s.renderHeight lm).normal.multiplyScalar
              heartOffset)).sub (computeBasis s.renderWidth s.renderHeight lm).normal,
           (computeBasis s.renderWidth s.renderHeight lm).up⟩ } := by
  unfold updateHeartPose
  rw [if_neg (by simp [hl])]

/-- C6: in `updateHeartPose` the applied scale is
`clamp(clamp(palmWidthPixels / 180, 0.3, 2.5) * scaleMultiplier, 0.2, 8)`; for
every palm width `pw ≥ 0` the base scale lies in [0.3, 2.5], for every
`scaleMultiplier` the applied scale lies in [0.2, 8]; palm width 0 gives base
scale 0.3, palm width 10000 gives 2.5, and `scaleMultiplier = 100` gives applied
scale 8 for every palm width. -/
theorem updateHeartPose_scale_clamped (lm : LandmarkSet) (s : State) (pw sm : ℝ)
    (hl : s.modelLoaded = true) (_hpw : 0 ≤ pw) :
    (updateHeartPose lm s).heartGroup.scale =
      clamp (clamp (palmWidthPixels s.renderWidth s.renderHeight lm / 180) 0.3 2.5
        * s.scaleMultiplier) 0.2 8 ∧
    baseScale pw = clamp (pw / 180) 0.3 2.5 ∧
    appliedScale pw sm = clamp (baseScale pw * sm) 0.2 8 ∧
    0.3 ≤ baseScale pw ∧ baseScale pw ≤ 2.5 ∧
    0.2 ≤ appliedScale pw sm ∧ appliedScale pw sm ≤ 8 ∧
    baseScale 0 = 0.3 ∧ baseScale 10000 = 2.5 ∧
    (∀ p : ℝ, appliedScale p 100 = 8) := by
  refine ⟨?_, rfl, rfl, (baseScale_bounds pw).1, (baseScale_bounds pw).2,
    (appliedScale_bounds pw sm).1, (appliedScale_bounds pw sm).2, ?_, ?_, appliedScale_hundred⟩
  · rw [updateHeartPose_of_loaded lm s hl]
    rfl
  · unfold baseScale clamp
    norm_num
  · unfold baseScale clamp
    norm_num

/-- The scale bounds at the scenario state and palm, for palm width 64 and
`scaleMultiplier = 1`. -/
theorem updateHeartPose_scale_clamped_witness :
    0.3 ≤ baseScale 64 ∧ baseScale 64 ≤ 2.5 ∧ 0.2 ≤ appliedScale 64 1 ∧ appliedScale 64 1 ≤ 8 :=
  have h := updateHeartPose_scale_clamped scenarioLandmarks scenarioState 64 1 rfl (by norm_num)
  ⟨h.2.2.2.1, h.2.2.2.2.1, h.2.2.2.2.2.1, h.2.2.2.2.2.2.1⟩

theorem centerScene_z (W H : ℝ) (lm : LandmarkSet) :
    (centerScene W H lm).z =
      (0 + (lm 5).z.getD 0 + (lm 9).z.getD 0 + (lm 13).z.getD 0 + (lm 17).z.getD 0) / 4
        * depthScale := by
  simp only [centerScene, landmarkToScene, averagePoint, PALM_INDICES, List.foldl_cons,
    List.foldl_nil, averageStep, Option.getD_some, List.length_cons, List.length_nil]
  norm_num

theorem orientNormal_z_ge (c : Vector3) : -1 ≤ (orientNormal c).z := by
  have h := lengthSq_orientNormal c
  unfold Vector3.lengthSq at h
  nlinarith [mul_self_nonneg (orientNormal c).x, mul_self_nonneg (orientNormal c).y,
    mul_self_nonneg ((orientNormal c).z + 1), orientNormal_z_nonpos c]

/-- With a palm ring of depth 0 the overlay is placed between depth -40 and 0. -/
theorem position_z_bounds (W H : ℝ) (lm : LandmarkSet)
    (h5 : (lm 5).z.getD 0 = 0) (h9 : (lm 9).z.getD 0 = 0) (h13 : (lm 13).z.getD 0 = 0)
    (h17 : (lm 17).z.getD 0 = 0) :
    -40 ≤ ((centerScene W H lm).add
        ((computeBasis W H lm).normal.multiplyScalar heartOffset)).z ∧
    ((centerScene W H lm).add
        ((computeBasis W H lm).normal.multiplyScalar heartOffset)).z ≤ 0 := by
  have hc := centerScene_z W H lm
  rw [h5, h9, h13, h17] at hc
  have hlo := orientNormal_z_ge (candidateNormal W H lm)
  have hhi := orientNormal_z_nonpos (candidateNormal W H lm)
  rw [← computeBasis_normal] at hlo hhi
  simp only [Vector3.add, Vector3.multiplyScalar, heartOffset, hc]
  constructor <;> nlinarith

theorem centerScene_eq (W H : ℝ) (lm : LandmarkSet) :
    centerScene W H lm =
      ⟨((lm 5).x + (lm 9).x + (lm 13).x + (lm 17).x) / 4 * W - W / 2,
       H / 2 - ((lm 5).y + (lm 9).y + (lm 13).y + (lm 17).y) / 4 * H,
       ((lm 5).z.getD 0 + (lm 9).z.getD 0 + (lm 13).z.getD 0 + (lm 17).z.getD 0) / 4
         * 420⟩ := by
  simp only [centerScene, landmarkToScene, averagePoint, PALM_INDICES, List.foldl_cons,
    List.foldl_nil, averageStep, Option.getD_some, List.length_cons, List.length_nil,
    depthScale]
  ext <;> norm_num

/-- A candidate normal along the depth axis gives the normal `(0, 0, -1)`. -/
theorem orientNormal_of_xy_zero (c : Vector3) (hx : c.x = 0) (hy : c.y = 0) :
    orientNormal c = ⟨0, 0, -1⟩ := by
  by_cases h : c.lengthSq = 0
  · exact orientNormal_of_lengthSq_eq_zero c h
  · obtain ⟨k, _, _, _, hk⟩ := orientNormal_eq_multiplyScalar c h
    have hl := lengthSq_orientNormal c
    have hz := orientNormal_z_nonpos c
    have hx0 : (orientNormal c).x = 0 := by rw [hk]; simp [Vector3.multiplyScalar, hx]
    have hy0 : (orientNormal c).y = 0 := by rw [hk]; simp [Vector3.multiplyScalar, hy]
    unfold Vector3.lengthSq at hl
    rw [hx0, hy0] at hl
    have hz1 : (orientNormal c).z = -1 := by
      have hprod : ((orientNormal c).z + 1) * ((orientNormal c).z - 1) = 0 := by
        nlinarith
      rcases mul_eq_zero.1 hprod with h1 | h1
      · linarith
      · linarith
    ext
    · exact hx0
    · exact hy0
    · exact hz1

/-- When the wrist, index base and pinky base have depth 0, the normal is
`(0, 0, -1)`. -/
theorem computeBasis_normal_of_depth_zero (W H : ℝ) (lm : LandmarkSet)
    (h0 : (lm 0).z.getD 0 = 0) (h5 : (lm 5).z.getD 0 = 0) (h17 : (lm 17).z.getD 0 = 0) :
    (computeBasis W H lm).normal = ⟨0, 0, -1⟩ := by
  rw [computeBasis_normal]
  apply orientNormal_of_xy_zero
  · simp [candidateNormal, indexVec, pinkyVec, landmarkToScene, Vector3.crossVectors,
      Vector3.sub, h0, h5, h17]
  · simp [candidateNormal, indexVec, pinkyVec, landmarkToScene, Vector3.crossVectors,
      Vector3.sub, h0, h5, h17]

/-- The palm width of the scenario palm on extent (640, 480) is 64 pixels. -/
theorem palmWidthPixels_scenario (lm : LandmarkSet) (h5 : lm 5 = ⟨0.45, 0.4, some 0⟩)
    (h17 : lm 17 = ⟨0.55, 0.4, some 0⟩) : palmWidthPixels 640 480 lm = 64 := by
  simp only [palmWidthPixels, hypot, h5, h17]
  have h : ((0.45 : ℝ) - 0.55) * 640 * ((0.45 - 0.55) * 640) +
      (0.4 - 0.4) * 480 * ((0.4 - 0.4) * 480) = 64 * 64 := by
    norm_num
  rw [h, Real.sqrt_mul_self (by norm_num)]

theorem appliedScale_scenario : appliedScale 64 1 = 16 / 45 := by
  rw [appliedScale_one]
  unfold baseScale clamp
  rw [min_eq_right (by norm_num), max_eq_right (by norm_num)]
  norm_num

/-- C7: with the model loaded, `updateHeartPose` sets the position to the mapped
palm centroid plus 40 times the normal, where the mapped centroid is
`landmarkToScene` of the average of landmarks 5, 9, 13 and 17 (absent depths
counted as 0), and makes the overlay visible; when every landmark has depth 0
the normal is `(0, 0, -1)` and the position's depth is -40, in [-40, 0]; and for
the palm with wrist (0.5, 0.6, 0), index base (0.45, 0.4, 0), pinky base
(0.55, 0.4, 0), middle base (0.5, 0.35, 0) and landmark 13 of depth 0, on extent
(640, 480) with `scaleMultiplier = 1`, the position is the mapped centroid moved
to depth -40, in [-420, 420], and the scale is 16/45, in [0.3, 2.5]. -/
theorem updateHeartPose_scenario (s : State) (lm : LandmarkSet) (hl : s.modelLoaded = true) :
    (updateHeartPose lm s).heartGroup.position =
      (centerScene s.renderWidth s.renderHeight lm).add
        ((computeBasis s.renderWidth s.renderHeight lm).normal.multiplyScalar 40) ∧
    centerScene s.renderWidth s.renderHeight lm =
      landmarkToScene s.renderWidth s.renderHeight
        ⟨((lm 5).x + (lm 9).x + (lm 13).x + (lm 17).x) / 4,
         ((lm 5).y + (lm 9).y + (lm 13).y + (lm 17).y) / 4,
         some (((lm 5).z.getD 0 + (lm 9).z.getD 0 + (lm 13).z.getD 0
           + (lm 17).z.getD 0) / 4)⟩ ∧
    (updateHeartPose lm s).heartGroup.position =
      ⟨((lm 5).x + (lm 9).x + (lm 13).x + (lm 17).x) / 4 * s.renderWidth
          - s.renderWidth / 2
          + (computeBasis s.renderWidth s.renderHeight lm).normal.x * 40,
       s.renderHeight / 2
          - ((lm 5).y + (lm 9).y + (lm 13).y + (lm 17).y) / 4 * s.renderHeight
          + (computeBasis s.renderWidth s.renderHeight lm).normal.y * 40,
       ((lm 5).z.getD 0 + (lm 9).z.getD 0 + (lm 13).z.getD 0 + (lm 17).z.getD 0) / 4 * 420
          + (computeBasis s.renderWidth s.renderHeight lm).normal.z * 40⟩ ∧
    (updateHeartPose lm s).heartGroup.visible = true ∧
    ((∀ i, (lm i).z.getD 0 = 0) →
      (computeBasis s.renderWidth s.renderHeight lm).normal = ⟨0, 0, -1⟩ ∧
      (updateHeartPose lm s).heartGroup.position.z = -40 ∧
      -40 ≤ (updateHeartPose lm s).heartGroup.position.z ∧
      (updateHeartPose lm s).heartGroup.position.z ≤ 0) ∧
    (s.renderWidth = 640 → s.renderHeight = 480 → s.scaleMultiplier = 1 →
      lm 0 = ⟨0.5, 0.6, some 0⟩ → lm 5 = ⟨0.45, 0.4, some 0⟩ →
      lm 17 = ⟨0.55, 0.4, some 0⟩ → lm 9 = ⟨0.5, 0.35, some 0⟩ →
      (lm 13).z.getD 0 = 0 →
      (updateHeartPose lm s).heartGroup.position =
        ⟨(0.45 + 0.5 + (lm 13).x + 0.55) / 4 * 640 - 320,
         240 - (0.4 + 0.35 + (lm 13).y + 0.4) / 4 * 480,
         -40⟩ ∧
      -420 ≤ (updateHeartPose lm s).heartGroup.position.z ∧
      (updateHeartPose lm s).heartGroup.position.z ≤ 420 ∧
      (updateHeartPose lm s).heartGroup.scale = 16 / 45 ∧
      0.3 ≤ (updateHeartPose lm s).heartGroup.scale ∧
      (updateHeartPose lm s).heartGroup.scale ≤ 2.5) := by
  have hpos : (updateHeartPose lm s).heartGroup.position =
      ⟨((lm 5).x + (lm 9).x + (lm 13).x + (lm 17).x) / 4 * s.renderWidth
          - s.renderWidth / 2
          + (computeBasis s.renderWidth s.renderHeight lm).normal.x * 40,
       s.renderHeight / 2
          - ((lm 5).y + (lm 9).y + (lm 13).y + (lm 17).y) / 4 * s.renderHeight
          + (computeBasis s.renderWidth s.renderHeight lm).normal.y * 40,
       ((lm 5).z.getD 0 + (lm 9).z.getD 0 + (lm 13).z.getD 0 + (lm 17).z.getD 0) / 4 * 420
          + (computeBasis s.renderWidth s.renderHeight lm).normal.z * 40⟩ := by
    rw [updateHeartPose_of_loaded lm s hl]
    simp only [centerScene_eq, Vector3.add, Vector3.multiplyScalar, heartOffset]
  have hscale : (updateHeartPose lm s).heartGroup.scale =
      appliedScale (palmWidthPixels s.renderWidth s.renderHeight lm) s.scaleMultiplier := by
    rw [updateHeartPose_of_loaded lm s hl]
  refine ⟨?_, ?_, hpos, ?_, fun hz => ?_, fun hW hH hsm h0 h5 h17 h9 h13 => ?_⟩
  · rw [updateHeartPose_of_loaded lm s hl]
    rfl
  · rw [centerScene_eq]
    simp only [landmarkToScene, Option.getD_some, depthScale]
  · rw [updateHeartPose_of_loaded lm s hl]
  · have hn := computeBasis_normal_of_depth_zero s.renderWidth s.renderHeight lm
      (hz 0) (hz 5) (hz 17)
    have hzz : (updateHeartPose lm s).heartGroup.position.z = -40 := by
      rw [hpos, hn, hz 5, hz 9, hz 13, hz 17]
      norm_num
    exact ⟨hn, hzz, by rw [hzz], by rw [hzz]; norm_num⟩
  · have hn := computeBasis_normal_of_depth_zero s.renderWidth s.renderHeight lm
      (by rw [h0]; rfl) (by rw [h5]; rfl) (by rw [h17]; rfl)
    have hp : (updateHeartPose lm s).heartGroup.position =
        ⟨(0.45 + 0.5 + (lm 13).x + 0.55) / 4 * 640 - 320,
         240 - (0.4 + 0.35 + (lm 13).y + 0.4) / 4 * 480,
         -40⟩ := by
      rw [hpos, hn, hW, hH, h13, h5, h9, h17]
      ext <;> simp only [Option.getD_some] <;> norm_num
    have hs : (updateHeartPose lm s).heartGroup.scale = 16 / 45 := by
      rw [hscale, hW, hH, hsm, palmWidthPixels_scenario lm h5 h17, appliedScale_scenario]
    refine ⟨hp, ?_, ?_, hs, ?_, ?_⟩
    · rw [hp]; norm_num
    · rw [hp]; norm_num
    · rw [hs]; norm_num
    · rw [hs]; norm_num

/-- The scenario palm (landmark 13 at (0.5, 0.4, 0)) at the scenario state: the
overlay becomes visible at (0, 54, -40), the mapped centroid moved 40 units
along the normal `(0, 0, -1)`, with scale 16/45. -/
theorem updateHeartPose_scenario_witness :
    (updateHeartPose scenarioLandmarks scenarioState).heartGroup.visible = true ∧
    (computeBasis 640 480 scenarioLandmarks).normal = ⟨0, 0, -1⟩ ∧
    (updateHeartPose scenarioLandmarks scenarioState).heartGroup.position = ⟨0, 54, -40⟩ ∧
    -40 ≤ (updateHeartPose scenarioLandmarks scenarioState).heartGroup.position.z ∧
    (updateHeartPose scenarioLandmarks scenarioState).heartGroup.position.z ≤ 0 ∧
    (updateHeartPose scenarioLandmarks scenarioState).heartGroup.scale = 16 / 45 ∧
    0.3 ≤ (updateHeartPose scenarioLandmarks scenarioState).heartGroup.scale ∧
    (updateHeartPose scenarioLandmarks scenarioState).heartGroup.scale ≤ 2.5 :=
  have h := updateHeartPose_scenario scenarioState scenarioLandmarks rfl
  have hz : ∀ i, (scenarioLandmarks i).z.getD 0 = 0 := by
    intro i
    simp only [scenarioLandmarks, palmLandmarks]
    split <;> rfl
  have hs := h.2.2.2.2.2 rfl rfl rfl rfl rfl rfl rfl rfl
  have hp : (updateHeartPose scenarioLandmarks scenarioState).heartGroup.position
      = ⟨0, 54, -40⟩ := by
    rw [hs.1]
    have h13 : scenarioLandmarks 13 = ⟨0.5, 0.4, some 0⟩ := rfl
    rw [h13]
    ext <;> norm_num
  ⟨h.2.2.2.1, (h.2.2.2.2.1 hz).1, hp, (h.2.2.2.2.1 hz).2.2.1, (h.2.2.2.2.1 hz).2.2.2,
    hs.2.2.2.1, hs.2.2.2.2.1, hs.2.2.2.2.2⟩

/-! ## The frame loop -/

/-- The two results of `ensureRendererSize`: the state itself, or the state with
the video's extent. -/
theorem ensureRendererSize_eq (f : Frame) (s : State) :
    ensureRendererSize f s = s ∨
    ensureRendererSize f s = { s with renderWidth := f.videoWidth, renderHeight := f.videoHeight } := by
  unfold ensureRendererSize
  dsimp only
  split_ifs
  · exact Or.inl rfl
  · exact Or.inr rfl

theorem ensureRendererSize_running (f : Frame) (s : State) :
    (ensureRendererSize f s).running = s.running := by
  rcases ensureRendererSize_eq f s with h | h <;> rw [h]

theorem ensureRendererSize_lastVideoTime (f : Frame) (s : State) :
    (ensureRendererSize f s).lastVideoTime = s.lastVideoTime := by
  rcases ensureRendererSize_eq f s with h | h <;> rw [h]

theorem ensureRendererSize_heartGroup (f : Frame) (s : State) :
    (ensureRendererSize f s).heartGroup = s.heartGroup := by
  rcases ensureRendererSize_eq f s with h | h <;> rw [h]

theorem ensureRendererSize_modelLoaded (f : Frame) (s : State) :
    (ensureRendererSize f s).modelLoaded = s.modelLoaded := by
  rcases ensureRendererSize_eq f s with h | h <;> rw [h]

theorem ensureRendererSize_detectCalls (f : Frame) (s : State) :
    (ensureRendererSize f s).detectCalls = s.detectCalls := by
  rcases ensureRendererSize_eq f s with h | h <;> rw [h]

theorem ensureRendererSize_frameRequests (f : Frame) (s : State) :
    (ensureRendererSize f s).frameRequests = s.frameRequests := by
  rcases ensureRendererSize_eq f s with h | h <;> rw [h]

theorem ensureRendererSize_animationFrame (f : Frame) (s : State) :
    (ensureRendererSize f s).animationFrame = s.animationFrame := by
  rcases ensureRendererSize_eq f s with h | h <;> rw [h]

theorem predictLoop_of_stopped (f : Frame) (s : State) (hr : s.running = false) :
    predictLoop f s = .returned s := by
  unfold predictLoop
  rw [if_pos hr]

theorem predictLoop_of_duplicate (f : Frame) (s : State) (hr : s.running = true)
    (ht : f.currentTime = s.lastVideoTime) :
    predictLoop f s = .returned (requestFrame (ensureRendererSize f s)) := by
  unfold predictLoop
  dsimp only
  rw [if_neg (by simp [hr]), if_pos (by rw [ensureRendererSize_lastVideoTime]; exact ht)]

theorem predictLoop_of_throws (f : Frame) (s : State) (hr : s.running = true)
    (ht : f.currentTime ≠ s.lastVideoTime) (hd : f.detection = .throws) :
    predictLoop f s =
      .threw { ensureRendererSize f s with
        lastVideoTime := f.currentTime
        detectCalls := (ensureRendererSize f s).detectCalls + 1 } := by
  unfold predictLoop
  dsimp only
  rw [if_neg (by simp [hr]), if_neg (by rw [ensureRendererSize_lastVideoTime]; exact ht)]
  simp only [hd]

theorem predictLoop_of_no_hand (f : Frame) (s : State) (hr : s.running = true)
    (ht : f.currentTime ≠ s.lastVideoTime) (landmarks : Option (List LandmarkSet))
    (hd : f.detection = .result landmarks) (hn : landmarks.getD [] = []) :
    predictLoop f s =
      .returned (requestFrame (render
        { ensureRendererSize f s with
          lastVideoTime := f.currentTime
          detectCalls := (ensureRendererSize f s).detectCalls + 1
          heartGroup := { (ensureRendererSize f s).heartGroup with visible := false } })) := by
  unfold predictLoop
  dsimp only
  rw [if_neg (by simp [hr]), if_neg (by rw [ensureRendererSize_lastVideoTime]; exact ht)]
  simp only [hd, hn]

theorem predictLoop_of_hand (f : Frame) (s : State) (hr : s.running = true)
    (ht : f.currentTime ≠ s.lastVideoTime) (landmarks : Option (List LandmarkSet))
    (hd : f.detection = .result landmarks) (hand : LandmarkSet) (rest : List LandmarkSet)
    (hn : landmarks.getD [] = hand :: rest) :
    predictLoop f s =
      .returned (requestFrame (render (updateHeartPose hand
        { ensureRendererSize f s with
          lastVideoTime := f.currentTime
          detectCalls := (ensureRendererSize f s).detectCalls + 1 }))) := by
  unfold predictLoop
  dsimp only
  rw [if_neg (by simp [hr]), if_neg (by rw [ensureRendererSize_lastVideoTime]; exact ht)]
  simp only [hd, hn]

theorem updateHeartPose_frameRequests (lm : LandmarkSet) (s : State) :
    (updateHeartPose lm s).frameRequests = s.frameRequests := by
  unfold updateHeartPose
  split_ifs <;> rfl

theorem updateHeartPose_detectCalls (lm : LandmarkSet) (s : State) :
    (updateHeartPose lm s).detectCalls = s.detectCalls := by
  unfold updateHeartPose
  split_ifs <;> rfl

theorem updateHeartPose_modelLoaded (lm : LandmarkSet) (s : State) :
    (updateHeartPose lm s).modelLoaded = s.modelLoaded := by
  unfold updateHeartPose
  split_ifs <;> rfl

theorem updateHeartPose_running (lm : LandmarkSet) (s : State) :
    (updateHeartPose lm s).running = s.running := by
  unfold updateHeartPose
  split_ifs <;> rfl

theorem updateHeartPose_lastVideoTime (lm : LandmarkSet) (s : State) :
    (updateHeartPose lm s).lastVideoTime = s.lastVideoTime := by
  unfold updateHeartPose
  split_ifs <;> rfl

/-- A tick on which the tracker returns ends normally with one more frame request. -/
theorem predictLoop_of_result (f : Frame) (s : State) (hr : s.running = true)
    (ht : f.currentTime ≠ s.lastVideoTime) (landmarks : Option (List LandmarkSet))
    (hd : f.detection = .result landmarks) :
    ∃ s', predictLoop f s = .returned s' ∧ s'.frameRequests = s.frameRequests + 1 ∧
      s'.animationFrame = some (s.frameRequests + 1) ∧
      s'.detectCalls = s.detectCalls + 1 ∧ s'.running = true ∧
      s'.lastVideoTime = f.currentTime ∧ s'.modelLoaded = s.modelLoaded := by
  cases hl : landmarks.getD [] with
  | nil =>
    refine ⟨_, predictLoop_of_no_hand f s hr ht landmarks hd hl, ?_⟩
    simp [requestFrame, render, ensureRendererSize_frameRequests,
      ensureRendererSize_detectCalls, ensureRendererSize_running,
      ensureRendererSize_modelLoaded, hr]
  | cons hand rest =>
    refine ⟨_, predictLoop_of_hand f s hr ht landmarks hd hand rest hl, ?_⟩
    simp [requestFrame, render, updateHeartPose_frameRequests, updateHeartPose_detectCalls,
      updateHeartPose_running, updateHeartPose_lastVideoTime, updateHeartPose_modelLoaded,
      ensureRendererSize_frameRequests, ensureRendererSize_detectCalls,
      ensureRendererSize_running, ensureRendererSize_modelLoaded, hr]

theorem predictLoop_duplicate_state (f : Frame) (s : State) (hr : s.running = true)
    (ht : f.currentTime = s.lastVideoTime) :
    (predictLoop f s).state.detectCalls = s.detectCalls ∧
    (predictLoop f s).state.heartGroup = s.heartGroup ∧
    (predictLoop f s).state.lastVideoTime = s.lastVideoTime ∧
    (predictLoop f s).state.frameRequests = s.frameRequests + 1 ∧
    (predictLoop f s).state.animationFrame = some (s.frameRequests + 1) := by
  rw [predictLoop_of_duplicate f s hr ht]
  simp [Outcome.state, requestFrame, ensureRendererSize_detectCalls,
    ensureRendererSize_heartGroup, ensureRendererSize_lastVideoTime,
    ensureRendererSize_frameRequests]

/-- After any tick of a running loop the loop is still running, the frame's
timestamp is the last processed one, and at most one detection call was made. -/
theorem predictLoop_running_state (f : Frame) (s : State) (hr : s.running = true) :
    (predictLoop f s).state.running = true ∧
    (predictLoop f s).state.lastVideoTime = f.currentTime ∧
    (predictLoop f s).state.detectCalls ≤ s.detectCalls + 1 := by
  by_cases ht : f.currentTime = s.lastVideoTime
  · rw [predictLoop_of_duplicate f s hr ht]
    simp [Outcome.state, requestFrame, ensureRendererSize_running,
      ensureRendererSize_lastVideoTime, ensureRendererSize_detectCalls, hr, ht]
  · cases hd : f.detection with
    | throws =>
      rw [predictLoop_of_throws f s hr ht hd]
      simp [Outcome.state, ensureRendererSize_running, ensureRendererSize_detectCalls, hr]
    | result landmarks =>
      obtain ⟨s', he, _, _, hdc, hrun, hlt, _⟩ := predictLoop_of_result f s hr ht landmarks hd
      rw [he]
      exact ⟨hrun, hlt, le_of_eq hdc⟩

/-- C8, as stated, fails: in the running scenario state a tick on which the
tracker throws ends by that exception, without a new frame request and with no
pending frame handle. -/
theorem predictLoop_throw_not_rescheduled :
    scenarioState.running = true ∧
    throwingFrame.detection = .throws ∧
    (predictLoop throwingFrame scenarioState).failed = true ∧
    (predictLoop throwingFrame scenarioState).state.frameRequests
      = scenarioState.frameRequests ∧
    (predictLoop throwingFrame scenarioState).state.animationFrame = none := by
  have ht : throwingFrame.currentTime ≠ scenarioState.lastVideoTime := by
    show (0 : ℝ) ≠ -1
    norm_num
  rw [predictLoop_of_throws throwingFrame scenarioState rfl ht rfl]
  refine ⟨rfl, rfl, rfl, ?_, ?_⟩
  · exact ensureRendererSize_frameRequests _ _
  · exact ensureRendererSize_animationFrame _ _

/-- C8, amended: for every running scheduler state, a tick that skips a
duplicate frame or on which the tracker call returns ends normally and
schedules the next tick; a tick on a new frame on which the tracker call throws
ends by that exception and schedules nothing. -/
theorem predictLoop_reschedules_unless_throws (f : Frame) (s : State)
    (hr : s.running = true) :
    ((f.currentTime = s.lastVideoTime ∨ f.detection ≠ .throws) →
      ∃ s', predictLoop f s = .returned s' ∧ s'.frameRequests = s.frameRequests + 1 ∧
        s'.animationFrame = some (s.frameRequests + 1)) ∧
    (f.currentTime ≠ s.lastVideoTime → f.detection = .throws →
      ∃ s', predictLoop f s = .threw s' ∧ s'.frameRequests = s.frameRequests ∧
        s'.animationFrame = s.animationFrame) := by
  constructor
  · intro h
    by_cases ht : f.currentTime = s.lastVideoTime
    · have hd := predictLoop_duplicate_state f s hr ht
      rw [predictLoop_of_duplicate f s hr ht] at hd
      exact ⟨_, predictLoop_of_duplicate f s hr ht, hd.2.2.2.1, hd.2.2.2.2⟩
    · cases hd : f.detection with
      | throws =>
        rcases h with h | h
        · exact absurd h ht
        · exact absurd hd h
      | result landmarks =>
        obtain ⟨s', he, hfr, haf, _⟩ := predictLoop_of_result f s hr ht landmarks hd
        exact ⟨s', he, hfr, haf⟩
  · intro ht hd
    exact ⟨_, predictLoop_of_throws f s hr ht hd, ensureRendererSize_frameRequests f s,
      ensureRendererSize_animationFrame f s⟩

/-- In the running scenario state the tick on the scenario frame, on which the
tracker returns, ends normally with a first frame request. -/
theorem predictLoop_reschedules_unless_throws_witness :
    ∃ s', predictLoop scenarioFrame scenarioState = .returned s' ∧
      s'.frameRequests = scenarioState.frameRequests + 1 ∧
      s'.animationFrame = some (scenarioState.frameRequests + 1) :=
  (predictLoop_reschedules_unless_throws scenarioFrame scenarioState rfl).1
    (Or.inr (by simp [scenarioFrame]))

/-- C9: for every running scheduler state, a tick whose video timestamp equals
`lastVideoTime` makes no detection call, leaves the overlay's position,
quaternion, scale and visibility and `lastVideoTime` unchanged and schedules
the next tick; and two consecutive ticks at the same video timestamp make at most
one detection call. -/
theorem predictLoop_duplicate_frame (f f2 : Frame) (s : State) (hr : s.running = true) :
    (f.currentTime = s.lastVideoTime →
      ∃ s', predictLoop f s = .returned s' ∧ s'.detectCalls = s.detectCalls ∧
        s'.heartGroup = s.heartGroup ∧ s'.lastVideoTime = s.lastVideoTime ∧
        s'.frameRequests = s.frameRequests + 1 ∧
        s'.animationFrame = some (s.frameRequests + 1)) ∧
    (f2.currentTime = f.currentTime →
      (predictLoop f2 (predictLoop f s).state).state.detectCalls ≤ s.detectCalls + 1) := by
  constructor
  · intro ht
    have hd := predictLoop_duplicate_state f s hr ht
    rw [predictLoop_of_duplicate f s hr ht] at hd
    exact ⟨_, predictLoop_of_duplicate f s hr ht, hd⟩
  · intro h2
    obtain ⟨hrun, hlt, hdc⟩ := predictLoop_running_state f s hr
    have hd := predictLoop_duplicate_state f2 (predictLoop f s).state hrun (by rw [hlt, h2])
    rw [hd.1]
    exact hdc

/-- In the running scenario state, whose `lastVideoTime` is -1, a tick at video
time -1 calls no detection, and two ticks at video time 0 call it at most once. -/
theorem predictLoop_duplicate_frame_witness :
    (∃ s', predictLoop staleFrame scenarioState = .returned s' ∧
      s'.detectCalls = scenarioState.detectCalls ∧
      s'.heartGroup = scenarioState.heartGroup ∧
      s'.lastVideoTime = scenarioState.lastVideoTime ∧
      s'.frameRequests = scenarioState.frameRequests + 1 ∧
      s'.animationFrame = some (scenarioState.frameRequests + 1)) ∧
    (predictLoop throwingFrame (predictLoop scenarioFrame scenarioState).state).state.detectCalls
      ≤ scenarioState.detectCalls + 1 :=
  ⟨(predictLoop_duplicate_frame staleFrame staleFrame scenarioState rfl).1 rfl,
   (predictLoop_duplicate_frame scenarioFrame throwingFrame scenarioState rfl).2 rfl⟩

/-! ## Visibility of the overlay -/

theorem updateHeartPose_visible_imp (lm : LandmarkSet) (s : State)
    (h : s.heartGroup.visible = true → s.modelLoaded = true) :
    (updateHeartPose lm s).heartGroup.visible = true → (updateHeartPose lm s).modelLoaded = true := by
  rw [updateHeartPose_modelLoaded]
  by_cases hl : s.modelLoaded = true
  · exact fun _ => hl
  · have he : updateHeartPose lm s = s := by
      unfold updateHeartPose
      rw [if_pos (by simpa using hl)]
    rw [he]
    exact h

/-- One call of `predictLoop` keeps "visible only if the model has loaded". -/
theorem predictLoop_visible_imp (f : Frame) (s : State)
    (h : s.heartGroup.visible = true → s.modelLoaded = true) :
    (predictLoop f s).state.heartGroup.visible = true →
      (predictLoop f s).state.modelLoaded = true := by
  cases hr : s.running with
  | false =>
    rw [predictLoop_of_stopped f s hr]
    exact h
  | true =>
    by_cases ht : f.currentTime = s.lastVideoTime
    · rw [predictLoop_of_duplicate f s hr ht]
      simpa [Outcome.state, requestFrame, ensureRendererSize_heartGroup,
        ensureRendererSize_modelLoaded] using h
    · cases hd : f.detection with
      | throws =>
        rw [predictLoop_of_throws f s hr ht hd]
        simpa [Outcome.state, ensureRendererSize_heartGroup, ensureRendererSize_modelLoaded]
          using h
      | result landmarks =>
        cases hl : landmarks.getD [] with
        | nil =>
          rw [predictLoop_of_no_hand f s hr ht landmarks hd hl]
          simp [Outcome.state, requestFrame, render]
        | cons hand rest =>
          rw [predictLoop_of_hand f s hr ht landmarks hd hand rest hl]
          have hu := updateHeartPose_visible_imp hand
            { ensureRendererSize f s with
              lastVideoTime := f.currentTime
              detectCalls := (ensureRendererSize f s).detectCalls + 1 }
            (by simpa [ensureRendererSize_heartGroup, ensureRendererSize_modelLoaded] using h)
          simpa [Outcome.state, requestFrame, render] using hu

/-- In every reachable state the overlay is visible only if the model has loaded. -/
theorem reachable_visible_imp (s : State) (hs : Reachable s) :
    s.heartGroup.visible = true → s.modelLoaded = true := by
  induction hs with
  | initial => intro h; simp [State.initial] at h
  | modelLoad _ _ => intro _; rfl
  | slider value _ ih => exact ih
  | start f _ _ ih =>
    apply predictLoop_visible_imp
    simpa [ensureRendererSize_heartGroup, ensureRendererSize_modelLoaded] using ih
  | tick f _ ih => exact predictLoop_visible_imp f _ ih
  | stop _ _ => intro h; simp [stop, render] at h

/-- C10: in every state reachable from the initial state the overlay is visible
only if the model has loaded; and a processed tick (running, new video
timestamp, tracker returns) ends normally with the overlay visible if and only
if the tracker returned at least one hand and the model has loaded, so an empty
hand list hides the overlay. -/
theorem overlay_visible_iff (s : State) (hs : Reachable s) :
    (s.heartGroup.visible = true → s.modelLoaded = true) ∧
    (∀ (f : Frame) (landmarks : Option (List LandmarkSet)),
      s.running = true → f.currentTime ≠ s.lastVideoTime → f.detection = .result landmarks →
      (predictLoop f s).failed = false ∧
      ((predictLoop f s).state.heartGroup.visible = true ↔
        (landmarks.getD [] ≠ [] ∧ s.modelLoaded = true)) ∧
      (landmarks.getD [] = [] → (predictLoop f s).state.heartGroup.visible = false)) := by
  have hinv := reachable_visible_imp s hs
  refine ⟨hinv, fun f landmarks hr ht hd => ?_⟩
  cases hl : landmarks.getD [] with
  | nil =>
    rw [predictLoop_of_no_hand f s hr ht landmarks hd hl]
    simp [Outcome.state, Outcome.failed, requestFrame, render]
  | cons hand rest =>
    rw [predictLoop_of_hand f s hr ht landmarks hd hand rest hl]
    by_cases hm : s.modelLoaded = true
    · have hv := updateHeartPose_of_loaded hand
        { ensureRendererSize f s with
          lastVideoTime := f.currentTime
          detectCalls := (ensureRendererSize f s).detectCalls + 1 }
        (by simpa [ensureRendererSize_modelLoaded] using hm)
      simp [Outcome.state, Outcome.failed, requestFrame, render, hv, hm]
    · have he : updateHeartPose hand
          { ensureRendererSize f s with
            lastVideoTime := f.currentTime
            detectCalls := (ensureRendererSize f s).detectCalls + 1 } =
          { ensureRendererSize f s with
            lastVideoTime := f.currentTime
            detectCalls := (ensureRendererSize f s).detectCalls + 1 } := by
        unfold updateHeartPose
        rw [if_pos (by simpa [ensureRendererSize_modelLoaded] using hm)]
      have hnv : s.heartGroup.visible = false := by
        cases hv : s.heartGroup.visible with
        | false => rfl
        | true => exact absurd (hinv hv) hm
      rw [he]
      simp [Outcome.state, Outcome.failed, requestFrame, render,
        ensureRendererSize_heartGroup, hnv, hm]

theorem start_scenario_state :
    (start scenarioFrame (modelLoadCompleted State.initial)).running = true ∧
    (start scenarioFrame (modelLoadCompleted State.initial)).lastVideoTime = 0 := by
  have hr : (ensureRendererSize scenarioFrame
      { modelLoadCompleted State.initial with running := true }).running = true := by
    rw [ensureRendererSize_running]
  have h := predictLoop_running_state scenarioFrame _ hr
  exact ⟨h.1, h.2.1⟩

/-- The state after the model has loaded and the session has started on the
scenario frame is reachable and running; a later tick at video time 1 with an
empty hand list ends normally and hides the overlay. -/
theorem overlay_visible_iff_witness :
    Reachable (start scenarioFrame (modelLoadCompleted State.initial)) ∧
    (predictLoop emptyFrame
      (start scenarioFrame (modelLoadCompleted State.initial))).failed = false ∧
    (predictLoop emptyFrame
      (start scenarioFrame (modelLoadCompleted State.initial))).state.heartGroup.visible
        = false :=
  have hs : Reachable (start scenarioFrame (modelLoadCompleted State.initial)) :=
    Reachable.start scenarioFrame (Reachable.modelLoad Reachable.initial) rfl
  have ht : emptyFrame.currentTime ≠
      (start scenarioFrame (modelLoadCompleted State.initial)).lastVideoTime := by
    rw [start_scenario_state.2]
    show (1 : ℝ) ≠ 0
    norm_num
  have h := (overlay_visible_iff _ hs).2 emptyFrame (some []) start_scenario_state.1 ht rfl
  ⟨hs, h.1, h.2.2 rfl⟩

end HandAR
